import Mathlib

/-!
Verification of the msal-apichange token-acquisition engine
(`src/lib/msal-apichange/src/UserAgentApplication.ts` and
`src/lib/msal-apichange/src/Exception.ts`, together with the
`HomeAccountIdentifier` class shipped alongside them).

The stateful parts of the library (the string-keyed browser storage, the
window-scoped renewal registries, and the response handler) are embedded as
pure functions over explicit state records.  Helper modules that the engine
imports but whose sources are not part of the repository snapshot
(`Utils.ts`, `Storage.ts`, `Constants.ts`, `IdToken.ts`, `AccessTokenKey.ts`)
are modelled from the specification; each such definition carries a doc
comment saying so.
-/

set_option maxRecDepth 8192

namespace MsalSpec

/-! ### Association lists

The browser storage and the window registries are string-keyed mutable maps;
we model them as association lists. -/

def lookupA {β : Type} : List (String × β) → String → Option β
  | [], _ => none
  | (k, v) :: t, k' => if k = k' then some v else lookupA t k'

def setA {β : Type} : List (String × β) → String → β → List (String × β)
  | [], k, v => [(k, v)]
  | (k0, v0) :: t, k, v => if k0 = k then (k, v) :: t else (k0, v0) :: setA t k v

def removeA {β : Type} (l : List (String × β)) (k : String) : List (String × β) :=
  l.filter (fun p => p.1 ≠ k)

theorem removeA_nil {β : Type} (k : String) : removeA ([] : List (String × β)) k = [] := rfl

theorem removeA_cons {β : Type} (k0 : String) (v : β) (t : List (String × β)) (k : String) :
    removeA ((k0, v) :: t) k =
      if k0 = k then removeA t k else (k0, v) :: removeA t k := by
  by_cases h : k0 = k <;> simp [removeA, List.filter_cons, h]

theorem lookupA_setA_self {β : Type} (l : List (String × β)) (k : String) (v : β) :
    lookupA (setA l k v) k = some v := by
  induction l with
  | nil => simp [setA, lookupA]
  | cons p t ih =>
    by_cases h : p.1 = k
    · simp [setA, h, lookupA]
    · simp [setA, h, lookupA, ih]

theorem lookupA_setA_ne {β : Type} (l : List (String × β)) (k k' : String) (v : β)
    (h : k ≠ k') : lookupA (setA l k v) k' = lookupA l k' := by
  induction l with
  | nil => simp [setA, lookupA, h]
  | cons p t ih =>
    by_cases hp : p.1 = k
    · simp [setA, hp, lookupA, h]
    · simp [setA, hp, lookupA, ih]

theorem lookupA_removeA_self {β : Type} (l : List (String × β)) (k : String) :
    lookupA (removeA l k) k = none := by
  induction l with
  | nil => simp [removeA, lookupA]
  | cons p t ih =>
    rcases p with ⟨k0, v⟩
    rw [removeA_cons]
    by_cases hp : k0 = k
    · simpa [hp] using ih
    · simp [hp, lookupA, ih]

theorem lookupA_removeA_ne {β : Type} (l : List (String × β)) (k k' : String)
    (h : k ≠ k') : lookupA (removeA l k) k' = lookupA l k' := by
  induction l with
  | nil => simp [removeA, lookupA]
  | cons p t ih =>
    rcases p with ⟨k0, v⟩
    rw [removeA_cons]
    by_cases hp : k0 = k
    · have hp' : k0 ≠ k' := by rw [hp]; exact h
      simp [hp, lookupA, hp', ih, h]
    · have hk : k' ≠ k := fun e => h e.symm
      by_cases hq : k0 = k'
      · simp [hp, lookupA, hq, hk]
      · simp [hp, lookupA, hq, ih]

/-! ### Utils helpers

Modelled from the spec: `Utils.ts` is imported by `UserAgentApplication.ts`
but is not in the repository snapshot.  The spec describes the scope test as
a "scope-superset match" (§4.2), renewal-overwrite eviction as removing "any
existing entry whose scope set intersects the incoming consent" (§4.2), and
account identifiers as base64url encodings of the uid/utid pair (§4.6). -/

/-- Modelled from the spec: base64url alphabet used by
`Utils.base64EncodeStringUrlSafe`. -/
def base64UrlAlphabet : List Char :=
  "ABCDEFGHIJKLMNOPQRSTUVWXYZabcdefghijklmnopqrstuvwxyz0123456789-_".toList

/-- Modelled from the spec: one output character of the base64url encoding. -/
def b64Char (n : Nat) : Char :=
  base64UrlAlphabet.getD n 'A'

/-- Modelled from the spec: unpadded base64url encoding of a byte sequence. -/
def base64EncodeBytes : List Nat → List Char
  | [] => []
  | [b1] => [b64Char (b1 / 4), b64Char (b1 % 4 * 16)]
  | [b1, b2] => [b64Char (b1 / 4), b64Char (b1 % 4 * 16 + b2 / 16), b64Char (b2 % 16 * 4)]
  | b1 :: b2 :: b3 :: rest =>
    b64Char (b1 / 4) :: b64Char (b1 % 4 * 16 + b2 / 16) ::
      b64Char (b2 % 16 * 4 + b3 / 64) :: b64Char (b3 % 64) :: base64EncodeBytes rest

/-- Modelled from the spec: `Utils.base64EncodeStringUrlSafe`, the base64url
encoding ("base64url of two opaque directory-assigned ids", spec §3).  The
opaque ids are ASCII, so each character is one byte. -/
def base64EncodeStringUrlSafe (s : String) : String :=
  String.mk (base64EncodeBytes (s.toList.map (fun c => c.toNat % 256)))

/-- JavaScript `str.split(" ")`: split at every single space, keeping empty
segments.  (Defined here by structural recursion; the behaviour on the
space-joined scope strings is that of `String.splitOn " "`.) -/
def splitSpacesAux : List Char → List Char → List String
  | [], acc => [String.mk acc.reverse]
  | c :: rest, acc =>
    if c = ' ' then String.mk acc.reverse :: splitSpacesAux rest []
    else splitSpacesAux rest (c :: acc)

/-- JavaScript `str.split(" ")` over a string. -/
def splitSpaces (s : String) : List String :=
  splitSpacesAux s.toList []

/-- JavaScript `arr.join(sep)`. -/
def joinSep (sep : String) : List String → String
  | [] => ""
  | [s] => s
  | s :: rest => s ++ sep ++ joinSep sep rest

/-- Modelled from the spec: `Utils.containsScope` — the cached scope set is a
superset of the requested one (spec §4.2 "scope-superset match"). -/
def containsScope (cachedScopes scopes : List String) : Bool :=
  scopes.all fun s => cachedScopes.contains s

/-- Modelled from the spec: `Utils.isIntersectingScopes` — the two scope sets
share at least one element (spec §4.2 `evictIntersecting`). -/
def isIntersectingScopes (cachedScopes scopes : List String) : Bool :=
  scopes.any fun s => cachedScopes.contains s

/-! ### The token cache -/

/-- Cache key of one stored token grant (spec §3 CacheKey).  `AccessTokenKey.ts`
is not in the snapshot; the `userIdentifier` field is the encoded
home-account identifier the source compares against
`account.homeAccountIdentifier` (UserAgentApplication.ts line 2146). -/
structure AccessTokenKey where
  authority : String
  clientId : String
  scopes : String
  userIdentifier : String
deriving DecidableEq

/-- Cache value of one stored token grant (spec §3 CacheValue);
`AccessTokenValue.ts` is not in the snapshot.  `expiresIn` holds the epoch
expiry seconds the source reads as `Number(value.expiresIn)`. -/
structure AccessTokenValue where
  accessToken : String
  idToken : String
  expiresIn : Nat
  clientInfo : String
deriving DecidableEq

structure AccessTokenCacheItem where
  key : AccessTokenKey
  value : AccessTokenValue
deriving DecidableEq

/-- Modelled from the spec: `Storage.getAllAccessTokens` filters "all entries
by clientId and account's homeAccountIdentifier" (spec §4.2).  When the
caller passes no account the account filter is skipped. -/
def getAllAccessTokens (clientId : String) (userIdentifier : Option String)
    (cache : List AccessTokenCacheItem) : List AccessTokenCacheItem :=
  cache.filter fun it =>
    it.key.clientId == clientId &&
      match userIdentifier with
      | some h => it.key.userIdentifier == h
      | none => true

/-- Modelled from the spec: `Storage.removeItem` applied to a serialized
cache key deletes the entries bearing that key. -/
def removeItem (k : AccessTokenKey) (cache : List AccessTokenCacheItem) :
    List AccessTokenCacheItem :=
  cache.filter fun it => it.key ≠ k

/-- Result record returned by `getCachedToken`
(fields as in the source: `errorDesc`, `token`, `error`). -/
structure CacheResult where
  errorDesc : Option String
  token : Option String
  error : Option String
deriving DecidableEq

/-- The ">1 scope matches, no explicit authority" ambiguity result
(UserAgentApplication.ts lines 1653-1657). -/
def multipleMatchingTokensResult : CacheResult :=
  { errorDesc := some "The cache contains multiple tokens satisfying the requirements. Call AcquireToken again providing more requirements like authority"
    token := none
    error := some "multiple_matching_tokens_detected" }

/-- The "zero scope matches but several distinct authorities" ambiguity result
(UserAgentApplication.ts lines 1663-1667). -/
def multipleAuthoritiesResult : CacheResult :=
  { errorDesc := some "Multiple authorities found in the cache. Pass authority in the API overload."
    token := none
    error := some "multiple_matching_tokens_detected" }

/-- The ">1 matches with an explicit authority" ambiguity result
(UserAgentApplication.ts lines 1693-1697). -/
def multipleMatchingTokensAuthorityResult : CacheResult :=
  { errorDesc := some "The cache contains multiple tokens satisfying the requirements.Call AcquireToken again providing more requirements like authority"
    token := none
    error := some "multiple_matching_tokens_detected" }

/-- `this.pConfig.system.tokenRenewalOffsetSeconds || 300`
(UserAgentApplication.ts line 1704): a missing or zero (falsy) configured
offset falls back to 300 seconds. -/
def tokenRenewalOffset : Option Nat → Nat
  | none => 300
  | some n => if n = 0 then 300 else n

/-- Scope-superset filtering of the client/account-filtered entries
(UserAgentApplication.ts lines 1638-1644). -/
def scopeFiltered (scopes : List String) (items : List AccessTokenCacheItem) :
    List AccessTokenCacheItem :=
  items.filter fun it => containsScope (splitSpaces it.key.scopes) scopes

/-- `getUniqueAuthority` (UserAgentApplication.ts lines 1766-1776): the
distinct authorities among the given entries, in first-seen order. -/
def getUniqueAuthority (items : List AccessTokenCacheItem) : List String :=
  items.foldl
    (fun acc it => if acc.contains it.key.authority then acc else acc ++ [it.key.authority]) []

/-- Expiry check of the unique matching entry
(UserAgentApplication.ts lines 1701-1717): return the token when
`expired && expired > now + offset`, otherwise evict the entry
and return none. -/
def checkExpiry (offsetCfg : Option Nat) (now : Nat) (item : AccessTokenCacheItem)
    (cache : List AccessTokenCacheItem) :
    Option CacheResult × List AccessTokenCacheItem :=
  let expired := item.value.expiresIn
  let offset := tokenRenewalOffset offsetCfg
  if expired ≠ 0 ∧ now + offset < expired then
    (some { errorDesc := none, token := some item.value.accessToken, error := none }, cache)
  else
    (none, removeItem item.key cache)

/-- `getCachedToken` (UserAgentApplication.ts lines 1626-1718), returning the
lookup result together with the cache left behind (the expiry branch evicts). -/
def getCachedToken (offsetCfg : Option Nat) (now : Nat) (clientId : String)
    (scopes : List String) (reqAuthority : Option String) (account : Option String)
    (cache : List AccessTokenCacheItem) :
    Option CacheResult × List AccessTokenCacheItem :=
  let tokenCacheItems := getAllAccessTokens clientId account cache
  if tokenCacheItems.isEmpty then (none, cache)
  else
    match reqAuthority with
    | none =>
      match scopeFiltered scopes tokenCacheItems with
      | [item] => checkExpiry offsetCfg now item cache
      | _ :: _ :: _ => (some multipleMatchingTokensResult, cache)
      | [] =>
        if (getUniqueAuthority tokenCacheItems).length > 1 then
          (some multipleAuthoritiesResult, cache)
        else (none, cache)
    | some auth =>
      match tokenCacheItems.filter
          (fun it => containsScope (splitSpaces it.key.scopes) scopes && it.key.authority == auth) with
      | [] => (none, cache)
      | [item] => checkExpiry offsetCfg now item cache
      | _ :: _ :: _ => (some multipleMatchingTokensAuthorityResult, cache)

/-! ### Support lemmas about the cache lookup -/

theorem tokenRenewalOffset_pos (o : Option Nat) : 0 < tokenRenewalOffset o := by
  cases o with
  | none => simp [tokenRenewalOffset]
  | some n =>
    by_cases h : n = 0
    · simp [tokenRenewalOffset, h]
    · simp [tokenRenewalOffset, h]
      omega

theorem getAllAccessTokens_removeItem (clientId : String) (account : Option String)
    (k : AccessTokenKey) (cache : List AccessTokenCacheItem) :
    getAllAccessTokens clientId account (removeItem k cache)
      = removeItem k (getAllAccessTokens clientId account cache) := by
  simp only [getAllAccessTokens, removeItem, List.filter_filter]
  exact List.filter_congr (fun x _ => by rw [Bool.and_comm])

theorem scopeFiltered_removeItem (scopes : List String) (k : AccessTokenKey)
    (items : List AccessTokenCacheItem) :
    scopeFiltered scopes (removeItem k items) = removeItem k (scopeFiltered scopes items) := by
  simp only [scopeFiltered, removeItem, List.filter_filter]
  exact List.filter_congr (fun x _ => by rw [Bool.and_comm])

/-! ### Concrete cache fixtures used by the closed theorems -/

/-- A cached grant for scope `s1` under authority `https://login.a/t1`. -/
def itemS1AuthA : AccessTokenCacheItem :=
  { key := { authority := "https://login.a/t1", clientId := "client",
             scopes := "s1", userIdentifier := "hid" }
    value := { accessToken := "AT1", idToken := "rid1", expiresIn := 9999, clientInfo := "ci" } }

/-- A cached grant for scopes `s1 s2` under authority `https://login.b/t2`. -/
def itemS1S2AuthB : AccessTokenCacheItem :=
  { key := { authority := "https://login.b/t2", clientId := "client",
             scopes := "s1 s2", userIdentifier := "hid" }
    value := { accessToken := "AT2", idToken := "rid2", expiresIn := 9999, clientInfo := "ci" } }

/-- An expired cached grant for scope `a` under authority `https://auth.x/t`. -/
def itemExpiredA : AccessTokenCacheItem :=
  { key := { authority := "https://auth.x/t", clientId := "client",
             scopes := "a", userIdentifier := "hid" }
    value := { accessToken := "ATa", idToken := "rida", expiresIn := 100, clientInfo := "ci" } }

/-- A cached grant for scope `b` under authority `https://auth.y/t`. -/
def itemOtherB : AccessTokenCacheItem :=
  { key := { authority := "https://auth.y/t", clientId := "client",
             scopes := "b", userIdentifier := "hid" }
    value := { accessToken := "ATb", idToken := "ridb", expiresIn := 9999, clientInfo := "ci" } }

/-- A cached grant for scope `c` under authority `https://auth.z/t`. -/
def itemOtherC : AccessTokenCacheItem :=
  { key := { authority := "https://auth.z/t", clientId := "client",
             scopes := "c", userIdentifier := "hid" }
    value := { accessToken := "ATc", idToken := "ridc", expiresIn := 9999, clientInfo := "ci" } }

/-! ### Claim C1 -/

/-- C1 counterexample: with no explicit authority, two cache entries that both
pass the scope filter and carry two distinct authorities do NOT produce the
multiple-authority ambiguity error; `getCachedToken` returns the generic
multiple-match ambiguity result instead (the multiple-authority result is
produced only in the zero-scope-match branch). -/
theorem claimC1_counterexample :
    (scopeFiltered ["s1"]
        (getAllAccessTokens "client" (some "hid") [itemS1AuthA, itemS1S2AuthB])).length = 2
    ∧ itemS1AuthA.key.authority ≠ itemS1S2AuthB.key.authority
    ∧ (getCachedToken none 0 "client" ["s1"] none (some "hid")
        [itemS1AuthA, itemS1S2AuthB]).1 = some multipleMatchingTokensResult
    ∧ multipleMatchingTokensResult ≠ multipleAuthoritiesResult := by
  refine ⟨by decide, by decide, rfl, by decide⟩

/-- C1 (amended): with no explicit authority, whenever more than one entry
survives the clientId/homeAccountIdentifier and scope-superset filters,
`getCachedToken` returns the multiple-match ambiguity error — regardless of
whether the matches share one authority or span several — and never an
arbitrary entry. -/
theorem claimC1_theorem (offsetCfg : Option Nat) (now : Nat) (clientId : String)
    (scopes : List String) (account : Option String) (cache : List AccessTokenCacheItem)
    (h : 2 ≤ (scopeFiltered scopes (getAllAccessTokens clientId account cache)).length) :
    (getCachedToken offsetCfg now clientId scopes none account cache).1
      = some multipleMatchingTokensResult := by
  set items := getAllAccessTokens clientId account cache with hitems
  have hne : items.isEmpty = false := by
    rcases hi : items with _ | ⟨x, xs⟩
    · rw [hi] at h; simp [scopeFiltered] at h
    · rfl
  rcases hf : scopeFiltered scopes items with _ | ⟨a, _ | ⟨b, t⟩⟩
  · rw [hf] at h; simp at h
  · rw [hf] at h; simp at h
  · simp [getCachedToken, ← hitems, hne, hf]

/-- C1 witness. -/
theorem claimC1_witness :
    2 ≤ (scopeFiltered ["s1"]
          (getAllAccessTokens "client" (some "hid") [itemS1AuthA, itemS1S2AuthB])).length
    ∧ (getCachedToken none 0 "client" ["s1"] none (some "hid")
        [itemS1AuthA, itemS1S2AuthB]).1 = some multipleMatchingTokensResult :=
  ⟨by decide,
   claimC1_theorem none 0 "client" ["s1"] (some "hid") [itemS1AuthA, itemS1S2AuthB] (by decide)⟩

/-! ### Claim C2 -/

/-- C2 counterexample: the expired entry `itemExpiredA` is the unique
scope match, so the first lookup evicts it and returns none — but the second
lookup for the same key does NOT return none: the two remaining entries for
the same clientId/account span two authorities, so the zero-match fallback
returns the multiple-authority ambiguity error. -/
theorem claimC2_counterexample :
    scopeFiltered ["a"]
        (getAllAccessTokens "client" (some "hid") [itemExpiredA, itemOtherB, itemOtherC])
      = [itemExpiredA]
    ∧ ¬ 1000 + tokenRenewalOffset none < itemExpiredA.value.expiresIn
    ∧ (getCachedToken none 1000 "client" ["a"] none (some "hid")
        [itemExpiredA, itemOtherB, itemOtherC])
      = (none, [itemOtherB, itemOtherC])
    ∧ (getCachedToken none 1000 "client" ["a"] none (some "hid")
        [itemOtherB, itemOtherC]).1 = some multipleAuthoritiesResult
    ∧ some multipleAuthoritiesResult ≠ (none : Option CacheResult) := by
  refine ⟨by decide, by decide, by decide, by decide, by decide⟩

/-- C2 (amended): when a stored entry is the unique scope match for a lookup
with no explicit authority, the lookup returns the entry's token iff its
expiry exceeds now plus the renewal offset; otherwise the entry is evicted
and the lookup returns none, and a second lookup for the same key returns no
token — it returns none unless the surviving entries for that clientId and
account span several authorities, in which case it returns the
multiple-authority ambiguity error. -/
theorem claimC2_theorem (offsetCfg : Option Nat) (now : Nat) (clientId : String)
    (scopes : List String) (hid : String) (item : AccessTokenCacheItem)
    (cache : List AccessTokenCacheItem)
    (h : scopeFiltered scopes (getAllAccessTokens clientId (some hid) cache) = [item]) :
    ((getCachedToken offsetCfg now clientId scopes none (some hid) cache).1
        = some { errorDesc := none, token := some item.value.accessToken, error := none }
      ↔ now + tokenRenewalOffset offsetCfg < item.value.expiresIn)
    ∧ (¬ now + tokenRenewalOffset offsetCfg < item.value.expiresIn →
        getCachedToken offsetCfg now clientId scopes none (some hid) cache
          = (none, removeItem item.key cache)
        ∧ ((getCachedToken offsetCfg now clientId scopes none (some hid)
              (removeItem item.key cache)).1 = none
           ∨ (getCachedToken offsetCfg now clientId scopes none (some hid)
              (removeItem item.key cache)).1 = some multipleAuthoritiesResult)) := by
  set items := getAllAccessTokens clientId (some hid) cache with hitems
  have hne : items.isEmpty = false := by
    rcases hi : items with _ | ⟨x, xs⟩
    · rw [hi] at h; simp [scopeFiltered] at h
    · rfl
  have hz : now + tokenRenewalOffset offsetCfg < item.value.expiresIn →
      item.value.expiresIn ≠ 0 := by
    have := tokenRenewalOffset_pos offsetCfg
    omega
  constructor
  · by_cases hexp : now + tokenRenewalOffset offsetCfg < item.value.expiresIn
    · simp [getCachedToken, ← hitems, hne, h, checkExpiry, hexp, hz hexp]
    · simp [getCachedToken, ← hitems, hne, h, checkExpiry, hexp]
  · intro hexp
    have heq : getCachedToken offsetCfg now clientId scopes none (some hid) cache
        = (none, removeItem item.key cache) := by
      simp [getCachedToken, ← hitems, hne, h, checkExpiry, hexp]
    refine ⟨heq, ?_⟩
    have hcomm : getAllAccessTokens clientId (some hid) (removeItem item.key cache)
        = removeItem item.key items := by
      rw [hitems]; exact getAllAccessTokens_removeItem clientId (some hid) item.key cache
    have hsf : scopeFiltered scopes (removeItem item.key items) = [] := by
      rw [scopeFiltered_removeItem, h]
      simp [removeItem]
    by_cases hemp : (removeItem item.key items).isEmpty
    · left
      simp [getCachedToken, hcomm, hemp]
    · by_cases hauth : (getUniqueAuthority (removeItem item.key items)).length > 1
      · right
        simp [getCachedToken, hcomm, hemp, hsf, hauth]
      · left
        simp [getCachedToken, hcomm, hemp, hsf, hauth]

/-- C2 witness. -/
theorem claimC2_witness :
    scopeFiltered ["a"] (getAllAccessTokens "client" (some "hid") [itemExpiredA]) = [itemExpiredA]
    ∧ (((getCachedToken none 1000 "client" ["a"] none (some "hid") [itemExpiredA]).1
          = some { errorDesc := none, token := some itemExpiredA.value.accessToken, error := none }
        ↔ 1000 + tokenRenewalOffset none < itemExpiredA.value.expiresIn)
      ∧ (¬ 1000 + tokenRenewalOffset none < itemExpiredA.value.expiresIn →
          getCachedToken none 1000 "client" ["a"] none (some "hid") [itemExpiredA]
            = (none, removeItem itemExpiredA.key [itemExpiredA])
          ∧ ((getCachedToken none 1000 "client" ["a"] none (some "hid")
                (removeItem itemExpiredA.key [itemExpiredA])).1 = none
             ∨ (getCachedToken none 1000 "client" ["a"] none (some "hid")
                (removeItem itemExpiredA.key [itemExpiredA])).1
                  = some multipleAuthoritiesResult))) :=
  ⟨by decide, claimC2_theorem none 1000 "client" ["a"] "hid" itemExpiredA [itemExpiredA] (by decide)⟩

/-! ### Constants

Modelled from the spec: `Constants.ts` is not in the repository snapshot.
Only identity of these strings matters; the request-type names follow the
spec's `LOGIN`/`RENEW_TOKEN` classification. -/

namespace Constants

def resourceDelimeter : String := "|"

def login : String := "LOGIN"

def renewToken : String := "RENEW_TOKEN"

def unknownRequest : String := "UNKNOWN"

def tokenRenewStatusInProgress : String := "In Progress"

def tokenRenewStatusCompleted : String := "Completed"

def tokenRenewStatusCancelled : String := "Canceled"

def noAccount : String := "no_account"

def acquireTokenUser : String := "acquireTokenUser"

def authority : String := "authority"

end Constants

/-- JavaScript truthiness of an optional string
(`undefined`, `null` and `""` are falsy). -/
def truthy : Option String → Bool
  | none => false
  | some s => !s.isEmpty

/-- The normalized scope key: `scopes.join(" ").toLowerCase()`
(UserAgentApplication.ts line 997). -/
def normalizeScopeKey (scopes : List String) : String :=
  String.mk ((joinSep " " scopes).toList.map Char.toLower)

/-! ### The renewal coordinator

The window-scoped registries driven by `registerCallback`,
`renewToken`/`loadIframeTimeout` and the dispatch closure
(UserAgentApplication.ts lines 1569-1595, 1854-1871, 1933-1963). -/

/-- The window-scoped mutable registries of the renewal coordinator.
`callBackMappedToRenewStates` records, per state, the scope captured by the
dispatch closure; `renewStatus` models the `renewStatus|state` storage
entries; `navigations` logs each hidden-iframe navigation (one per
`loadFrame`).  Waiting callers are identified by numbers. -/
structure RenewalState where
  activeRenewals : List (String × String)
  callBacksMappedToRenewStates : List (String × List Nat)
  callBackMappedToRenewStates : List (String × String)
  renewStates : List String
  requestType : String
  renewStatus : List (String × String)
  navigations : List String
deriving DecidableEq

/-- `registerCallback(expectedState, scope, resolve, reject)`
(UserAgentApplication.ts lines 1569-1595): point the active renewal for
`scope` at `expectedState`, append the caller's continuation, and create the
dispatch closure (capturing `scope`) only if none is registered yet. -/
def registerCallback (w : RenewalState) (expectedState scope : String) (caller : Nat) :
    RenewalState :=
  let w := { w with activeRenewals := setA w.activeRenewals scope expectedState }
  let existing := (lookupA w.callBacksMappedToRenewStates expectedState).getD []
  let w := { w with
    callBacksMappedToRenewStates :=
      setA w.callBacksMappedToRenewStates expectedState (existing ++ [caller]) }
  if (lookupA w.callBackMappedToRenewStates expectedState).isNone then
    { w with callBackMappedToRenewStates := setA w.callBackMappedToRenewStates expectedState scope }
  else w

/-- What one waiting caller observes when the dispatch closure runs
(UserAgentApplication.ts lines 1577-1590): reject on a truthy error, else
resolve on a truthy token, else nothing. -/
inductive CallerOutcome where
  | resolved (token : String)
  | rejected (msg : String)
  | dropped
deriving DecidableEq

def dispatchOutcome (errorDesc token error : Option String) : CallerOutcome :=
  if truthy errorDesc || truthy error then
    .rejected ((errorDesc.getD "") ++ Constants.resourceDelimeter ++ (error.getD ""))
  else if truthy token then .resolved (token.getD "")
  else .dropped

/-- Invoking the dispatch closure registered under `expectedState`
(UserAgentApplication.ts lines 1576-1593): clear the active renewal for the
captured scope, deliver the same outcome to every registered continuation in
registration order, then tear the registration down. -/
def invokeDispatch (w : RenewalState) (expectedState : String)
    (errorDesc token error : Option String) : RenewalState × List (Nat × CallerOutcome) :=
  match lookupA w.callBackMappedToRenewStates expectedState with
  | none => (w, [])
  | some capturedScope =>
    let waiters := (lookupA w.callBacksMappedToRenewStates expectedState).getD []
    let outcome := dispatchOutcome errorDesc token error
    let w := { w with
      activeRenewals := removeA w.activeRenewals capturedScope
      callBacksMappedToRenewStates := removeA w.callBacksMappedToRenewStates expectedState
      callBackMappedToRenewStates := removeA w.callBackMappedToRenewStates expectedState }
    (w, waiters.map fun c => (c, outcome))

/-- The registry effect of one silent access-token request after cache miss
and endpoint resolution (UserAgentApplication.ts lines 1055-1070 with
`renewToken`, lines 1933-1963, and the synchronous part of
`loadIframeTimeout`, lines 1854-1859): if a renewal for the scope key is
outstanding, only register the caller against the existing state; otherwise
start a renewal — push the fresh state, set the request type, register the
caller, mark the renewal in progress and navigate a hidden iframe. -/
def silentRenewalStep (w : RenewalState) (scope freshState : String) (caller : Nat) :
    RenewalState :=
  match lookupA w.activeRenewals scope with
  | some st => registerCallback w st scope caller
  | none =>
    let w := { w with
      renewStates := w.renewStates ++ [freshState]
      requestType := Constants.renewToken }
    let w := registerCallback w freshState scope caller
    let w := { w with
      renewStatus := setA w.renewStatus freshState Constants.tokenRenewStatusInProgress }
    { w with navigations := w.navigations ++ ["msalRenewFrame" ++ scope] }

/-- The `setTimeout` body of `loadIframeTimeout`
(UserAgentApplication.ts lines 1860-1870), fired with the expected state
captured when the renewal began: if the renewal is still pending, invoke the
dispatch callback with the timeout error and mark the renewal cancelled. -/
def iframeTimeoutFire (w : RenewalState) (expectedState : String) :
    RenewalState × List (Nat × CallerOutcome) :=
  if lookupA w.renewStatus expectedState = some Constants.tokenRenewStatusInProgress then
    let res :=
      if expectedState ≠ ""
          ∧ (lookupA w.callBackMappedToRenewStates expectedState).isSome then
        invokeDispatch w expectedState
          (some "Token renewal operation failed due to timeout") none
          (some "Token Renewal Failed")
      else (w, [])
    ({ res.1 with
        renewStatus := setA res.1.renewStatus expectedState Constants.tokenRenewStatusCancelled },
      res.2)
  else (w, [])

/-! ### Support lemmas about the renewal registries -/

theorem registerCallback_fresh (w : RenewalState) (st scope : String) (c : Nat)
    (h2 : lookupA w.callBacksMappedToRenewStates st = none)
    (h3 : lookupA w.callBackMappedToRenewStates st = none) :
    registerCallback w st scope c =
      { w with
        activeRenewals := setA w.activeRenewals scope st
        callBacksMappedToRenewStates := setA w.callBacksMappedToRenewStates st [c]
        callBackMappedToRenewStates := setA w.callBackMappedToRenewStates st scope } := by
  simp [registerCallback, h2, h3]

theorem registerCallback_existing (w : RenewalState) (st scope : String) (c : Nat)
    (cs : List Nat) (sc : String)
    (h2 : lookupA w.callBacksMappedToRenewStates st = some cs)
    (h3 : lookupA w.callBackMappedToRenewStates st = some sc) :
    registerCallback w st scope c =
      { w with
        activeRenewals := setA w.activeRenewals scope st
        callBacksMappedToRenewStates := setA w.callBacksMappedToRenewStates st (cs ++ [c]) } := by
  simp [registerCallback, h2, h3]

/-! ### Claim C3 -/

/-- C3: two silent requests whose scope lists share one normalized scope key,
the second issued while the first renewal is outstanding, lead to: a single
hidden-iframe navigation (the first call's), the later caller registered
against the existing correlation state, one dispatch that hands every
registered caller the same outcome, and a deleted registration afterwards. -/
theorem claimC3_theorem (w0 : RenewalState) (scopes1 scopes2 : List String)
    (key1 key2 stF stF2 : String) (c1 c2 : Nat) (errorDesc token error : Option String)
    (_hk1 : key1 = normalizeScopeKey scopes1) (_hk2 : key2 = normalizeScopeKey scopes2)
    (hkey : key2 = key1)
    (h1 : lookupA w0.activeRenewals key1 = none)
    (h2 : lookupA w0.callBacksMappedToRenewStates stF = none)
    (h3 : lookupA w0.callBackMappedToRenewStates stF = none) :
    (silentRenewalStep w0 key1 stF c1).navigations
        = w0.navigations ++ ["msalRenewFrame" ++ key1]
    ∧ (silentRenewalStep (silentRenewalStep w0 key1 stF c1) key2 stF2 c2).navigations
        = (silentRenewalStep w0 key1 stF c1).navigations
    ∧ lookupA (silentRenewalStep (silentRenewalStep w0 key1 stF c1) key2 stF2 c2).callBacksMappedToRenewStates
        stF = some [c1, c2]
    ∧ (invokeDispatch (silentRenewalStep (silentRenewalStep w0 key1 stF c1) key2 stF2 c2) stF
        errorDesc token error).2
        = [(c1, dispatchOutcome errorDesc token error), (c2, dispatchOutcome errorDesc token error)]
    ∧ lookupA (invokeDispatch (silentRenewalStep (silentRenewalStep w0 key1 stF c1) key2 stF2 c2) stF
        errorDesc token error).1.callBacksMappedToRenewStates stF = none
    ∧ lookupA (invokeDispatch (silentRenewalStep (silentRenewalStep w0 key1 stF c1) key2 stF2 c2) stF
        errorDesc token error).1.callBackMappedToRenewStates stF = none
    ∧ lookupA (invokeDispatch (silentRenewalStep (silentRenewalStep w0 key1 stF c1) key2 stF2 c2) stF
        errorDesc token error).1.activeRenewals key1 = none := by
  have hw1 : silentRenewalStep w0 key1 stF c1 =
      { w0 with
        activeRenewals := setA w0.activeRenewals key1 stF
        callBacksMappedToRenewStates := setA w0.callBacksMappedToRenewStates stF [c1]
        callBackMappedToRenewStates := setA w0.callBackMappedToRenewStates stF key1
        renewStates := w0.renewStates ++ [stF]
        requestType := Constants.renewToken
        renewStatus := setA w0.renewStatus stF Constants.tokenRenewStatusInProgress
        navigations := w0.navigations ++ ["msalRenewFrame" ++ key1] } := by
    simp only [silentRenewalStep, h1]
    rw [registerCallback_fresh] <;> simp [h2, h3]
  have h1b : lookupA (setA w0.activeRenewals key1 stF) key2 = some stF := by
    rw [hkey]; exact lookupA_setA_self _ _ _
  have hw2 : silentRenewalStep (silentRenewalStep w0 key1 stF c1) key2 stF2 c2 =
      { w0 with
        activeRenewals := setA (setA w0.activeRenewals key1 stF) key2 stF
        callBacksMappedToRenewStates :=
          setA (setA w0.callBacksMappedToRenewStates stF [c1]) stF [c1, c2]
        callBackMappedToRenewStates := setA w0.callBackMappedToRenewStates stF key1
        renewStates := w0.renewStates ++ [stF]
        requestType := Constants.renewToken
        renewStatus := setA w0.renewStatus stF Constants.tokenRenewStatusInProgress
        navigations := w0.navigations ++ ["msalRenewFrame" ++ key1] } := by
    rw [hw1]
    simp only [silentRenewalStep, h1b]
    rw [registerCallback_existing _ _ _ _ [c1] key1 (by simp [lookupA_setA_self])
      (by simp [lookupA_setA_self])]
    rfl
  refine ⟨by rw [hw1], by rw [hw2, hw1], ?_, ?_, ?_, ?_, ?_⟩
  · rw [hw2]; exact lookupA_setA_self _ _ _
  · rw [hw2]
    simp [invokeDispatch, lookupA_setA_self]
  · rw [hw2]
    simp [invokeDispatch, lookupA_setA_self, lookupA_removeA_self]
  · rw [hw2]
    simp [invokeDispatch, lookupA_setA_self, lookupA_removeA_self]
  · rw [hw2]
    simp [invokeDispatch, lookupA_setA_self, lookupA_removeA_self]

/-- An initial renewal-coordinator state: nothing outstanding. -/
def emptyRenewalState : RenewalState :=
  { activeRenewals := []
    callBacksMappedToRenewStates := []
    callBackMappedToRenewStates := []
    renewStates := []
    requestType := Constants.unknownRequest
    renewStatus := []
    navigations := [] }

/-- C3 witness. -/
theorem claimC3_witness :
    "s1" = normalizeScopeKey ["S1"]
    ∧ "s1" = normalizeScopeKey ["s1"]
    ∧ lookupA emptyRenewalState.activeRenewals "s1" = none
    ∧ ((silentRenewalStep emptyRenewalState "s1" "state1" 1).navigations
          = emptyRenewalState.navigations ++ ["msalRenewFrame" ++ "s1"]
      ∧ (silentRenewalStep (silentRenewalStep emptyRenewalState "s1" "state1" 1) "s1" "state2" 2).navigations
          = (silentRenewalStep emptyRenewalState "s1" "state1" 1).navigations
      ∧ lookupA (silentRenewalStep (silentRenewalStep emptyRenewalState "s1" "state1" 1) "s1" "state2" 2).callBacksMappedToRenewStates
          "state1" = some [1, 2]
      ∧ (invokeDispatch (silentRenewalStep (silentRenewalStep emptyRenewalState "s1" "state1" 1) "s1" "state2" 2) "state1"
          none (some "tok") none).2
          = [(1, dispatchOutcome none (some "tok") none), (2, dispatchOutcome none (some "tok") none)]
      ∧ lookupA (invokeDispatch (silentRenewalStep (silentRenewalStep emptyRenewalState "s1" "state1" 1) "s1" "state2" 2) "state1"
          none (some "tok") none).1.callBacksMappedToRenewStates "state1" = none
      ∧ lookupA (invokeDispatch (silentRenewalStep (silentRenewalStep emptyRenewalState "s1" "state1" 1) "s1" "state2" 2) "state1"
          none (some "tok") none).1.callBackMappedToRenewStates "state1" = none
      ∧ lookupA (invokeDispatch (silentRenewalStep (silentRenewalStep emptyRenewalState "s1" "state1" 1) "s1" "state2" 2) "state1"
          none (some "tok") none).1.activeRenewals "s1" = none) :=
  ⟨by decide, by decide, by decide,
   claimC3_theorem emptyRenewalState ["S1"] ["s1"] "s1" "s1" "state1" "state2" 1 2
     none (some "tok") none (by decide) (by decide) (by decide)
     (by decide) (by decide) (by decide)⟩

/-! ### Claim C4 -/

/-- C4: when the load timeout fires while a hidden-iframe renewal is still
pending, the renewal status is marked cancelled, the dispatch callback rejects
every waiter registered for that state with the timeout error, the
registration is cleared, and a subsequent call for the same scope key starts
a fresh attempt with its own navigation. -/
theorem claimC4_theorem (w : RenewalState) (scope stF stF2 : String)
    (waiters : List Nat) (c3 : Nat)
    (hst : lookupA w.renewStatus stF = some Constants.tokenRenewStatusInProgress)
    (hcb : lookupA w.callBackMappedToRenewStates stF = some scope)
    (hwait : lookupA w.callBacksMappedToRenewStates stF = some waiters)
    (hne : stF ≠ "") :
    lookupA (iframeTimeoutFire w stF).1.renewStatus stF
        = some Constants.tokenRenewStatusCancelled
    ∧ (iframeTimeoutFire w stF).2
        = waiters.map (fun c => (c, CallerOutcome.rejected
            "Token renewal operation failed due to timeout|Token Renewal Failed"))
    ∧ lookupA (iframeTimeoutFire w stF).1.callBacksMappedToRenewStates stF = none
    ∧ lookupA (iframeTimeoutFire w stF).1.callBackMappedToRenewStates stF = none
    ∧ lookupA (iframeTimeoutFire w stF).1.activeRenewals scope = none
    ∧ (silentRenewalStep (iframeTimeoutFire w stF).1 scope stF2 c3).navigations
        = (iframeTimeoutFire w stF).1.navigations ++ ["msalRenewFrame" ++ scope] := by
  have houtcome : dispatchOutcome
      (some "Token renewal operation failed due to timeout") none (some "Token Renewal Failed")
      = CallerOutcome.rejected
          "Token renewal operation failed due to timeout|Token Renewal Failed" := by decide
  have hfire : iframeTimeoutFire w stF =
      ({ w with
          activeRenewals := removeA w.activeRenewals scope
          callBacksMappedToRenewStates := removeA w.callBacksMappedToRenewStates stF
          callBackMappedToRenewStates := removeA w.callBackMappedToRenewStates stF
          renewStatus := setA w.renewStatus stF Constants.tokenRenewStatusCancelled },
        waiters.map (fun c => (c, CallerOutcome.rejected
          "Token renewal operation failed due to timeout|Token Renewal Failed"))) := by
    simp [iframeTimeoutFire, hst, hne, invokeDispatch, hcb, hwait, houtcome]
  rw [hfire]
  refine ⟨lookupA_setA_self _ _ _, rfl, lookupA_removeA_self _ _,
    lookupA_removeA_self _ _, lookupA_removeA_self _ _, ?_⟩
  simp [silentRenewalStep, lookupA_removeA_self, registerCallback, apply_ite]

/-- A renewal-coordinator state with one pending renewal for scope key `s1`
under correlation state `st1`, awaited by callers 7 and 8. -/
def pendingRenewalState : RenewalState :=
  { activeRenewals := [("s1", "st1")]
    callBacksMappedToRenewStates := [("st1", [7, 8])]
    callBackMappedToRenewStates := [("st1", "s1")]
    renewStates := ["st1"]
    requestType := Constants.renewToken
    renewStatus := [("st1", Constants.tokenRenewStatusInProgress)]
    navigations := ["msalRenewFrames1"] }

/-- C4 witness. -/
theorem claimC4_witness :
    lookupA pendingRenewalState.renewStatus "st1" = some Constants.tokenRenewStatusInProgress
    ∧ (lookupA (iframeTimeoutFire pendingRenewalState "st1").1.renewStatus "st1"
          = some Constants.tokenRenewStatusCancelled
      ∧ (iframeTimeoutFire pendingRenewalState "st1").2
          = [7, 8].map (fun c => (c, CallerOutcome.rejected
              "Token renewal operation failed due to timeout|Token Renewal Failed"))
      ∧ lookupA (iframeTimeoutFire pendingRenewalState "st1").1.callBacksMappedToRenewStates
          "st1" = none
      ∧ lookupA (iframeTimeoutFire pendingRenewalState "st1").1.callBackMappedToRenewStates
          "st1" = none
      ∧ lookupA (iframeTimeoutFire pendingRenewalState "st1").1.activeRenewals "s1" = none
      ∧ (silentRenewalStep (iframeTimeoutFire pendingRenewalState "st1").1 "s1" "st2" 9).navigations
          = (iframeTimeoutFire pendingRenewalState "st1").1.navigations
              ++ ["msalRenewFrame" ++ "s1"]) :=
  ⟨by decide,
   claimC4_theorem pendingRenewalState "s1" "st1" "st2" [7, 8] 9
     (by decide) (by decide) (by decide) (by decide)⟩

/-! ### The account model -/

/-- The uid/utid pair decoded from the opaque client-info blob
(`HomeAccountIdentifier.ts`); the getters substitute `""` for missing
components, so the record holds plain strings. -/
structure HomeAccountIdentifier where
  uid : String
  utid : String
deriving DecidableEq

/-- Decoded id-token claims.  `IdToken.ts` is not in the snapshot; the fields
are the ones the engine reads.  `expiration` is the epoch expiry used for the
id-token-as-access-token cache value. -/
structure IdToken where
  rawIdToken : String
  uid : String
  utid : String
  nonce : String
  tenantId : String
  preferredName : String
  name : String
  sid : String
  issuer : String
  expiration : Nat
  decodedIdToken : String
deriving DecidableEq

/-- `Account` (Exception.ts lines 226-247). -/
structure Account where
  accountIdentifier : String
  homeAccountIdentifier : String
  userName : String
  name : String
  idToken : String
  sid : String
  environment : String
deriving DecidableEq

/-- The account built by `createAccount` when the id token is present
(the `new Account(...)` call on Exception.ts line 283). -/
def Account.create (t : IdToken) (c : HomeAccountIdentifier) : Account :=
  { accountIdentifier :=
      base64EncodeStringUrlSafe t.uid ++ "." ++ base64EncodeStringUrlSafe t.utid
    homeAccountIdentifier :=
      base64EncodeStringUrlSafe c.uid ++ "." ++ base64EncodeStringUrlSafe c.utid
    userName := t.preferredName
    name := t.name
    idToken := t.decodedIdToken
    sid := t.sid
    environment := t.issuer }

/-- `Account.createAccount` (Exception.ts lines 252-284).  The absent-input
guards substitute empty uid/utid components for the identifiers, but the
final `new Account(...)` line dereferences `idToken.preferredName`
unconditionally, so a missing id token makes the function throw; the throw
is modelled as `none`. -/
def Account.createAccount (idToken : Option IdToken)
    (clientInfo : Option HomeAccountIdentifier) : Option Account :=
  let accountUid := match idToken with | none => "" | some t => t.uid
  let accountUtid := match idToken with | none => "" | some t => t.utid
  let uid := match clientInfo with | none => "" | some c => c.uid
  let utid := match clientInfo with | none => "" | some c => c.utid
  let accountIdentifier :=
    base64EncodeStringUrlSafe accountUid ++ "." ++ base64EncodeStringUrlSafe accountUtid
  let homeAccountIdentifier :=
    base64EncodeStringUrlSafe uid ++ "." ++ base64EncodeStringUrlSafe utid
  match idToken with
  | none => none
  | some t =>
    some { accountIdentifier := accountIdentifier
           homeAccountIdentifier := homeAccountIdentifier
           userName := t.preferredName
           name := t.name
           idToken := t.decodedIdToken
           sid := t.sid
           environment := t.issuer }

theorem createAccount_some (t : IdToken) (c : HomeAccountIdentifier) :
    Account.createAccount (some t) (some c) = some (Account.create t c) := rfl

/-! ### Claim C8 -/

/-- C8: with both inputs present, `createAccount` builds the base64url
dot-joined identifiers as specified, and an absent client info yields the
empty-component home identifier — but an absent id token does NOT return
normally: the function's own `!idToken` guard substitutes empty identifier
components, yet the final line dereferences the missing id token and throws
(modelled as `none`), whatever the client info. -/
theorem claimC8_theorem (t : IdToken) (c : HomeAccountIdentifier) :
    Account.createAccount (some t) (some c)
        = some { accountIdentifier :=
                   base64EncodeStringUrlSafe t.uid ++ "." ++ base64EncodeStringUrlSafe t.utid
                 homeAccountIdentifier :=
                   base64EncodeStringUrlSafe c.uid ++ "." ++ base64EncodeStringUrlSafe c.utid
                 userName := t.preferredName
                 name := t.name
                 idToken := t.decodedIdToken
                 sid := t.sid
                 environment := t.issuer }
    ∧ Account.createAccount (some t) none
        = some { accountIdentifier :=
                   base64EncodeStringUrlSafe t.uid ++ "." ++ base64EncodeStringUrlSafe t.utid
                 homeAccountIdentifier :=
                   base64EncodeStringUrlSafe "" ++ "." ++ base64EncodeStringUrlSafe ""
                 userName := t.preferredName
                 name := t.name
                 idToken := t.decodedIdToken
                 sid := t.sid
                 environment := t.issuer }
    ∧ Account.createAccount none (some c) = none
    ∧ Account.createAccount none none = none :=
  ⟨rfl, rfl, rfl, rfl⟩

/-! ### The response correlator: classification -/

/-- `TokenResponse` (RequestInfo.ts, not in the snapshot): the parsed
fragment, the request classification, the echoed state and whether it
matched. -/
structure TokenResponse where
  valid : Bool := false
  parameters : List (String × String) := []
  stateResponse : String := ""
  stateMatch : Bool := false
  requestType : String := Constants.unknownRequest
deriving DecidableEq

/-- A parameter is present in the parsed fragment. -/
def hasParam (params : List (String × String)) (k : String) : Bool :=
  (lookupA params k).isSome

/-- The fragment is a callback: one of error_description, error,
access_token, id_token is present (`isCallback`, lines 2320-2330). -/
def isCallbackParams (params : List (String × String)) : Bool :=
  hasParam params "error_description" || hasParam params "error"
    || hasParam params "access_token" || hasParam params "id_token"

/-- `getRequestInfo` (UserAgentApplication.ts lines 2354-2400) over the parsed
fragment parameters.  `stateLogin` and `stateAcquireToken` are the persisted
login/acquire-token states, `silentAuthState` is `pSilentAuthenticationState`,
`windowRequestType` and `renewStates` the window registries. -/
def getRequestInfo (stateLogin stateAcquireToken silentAuthState : Option String)
    (windowRequestType : String) (renewStates : List String)
    (params : List (String × String)) : TokenResponse :=
  let tokenResponse : TokenResponse := { parameters := params }
  if isCallbackParams params then
    let tokenResponse := { tokenResponse with valid := true }
    match lookupA params "state" with
    | none => tokenResponse
    | some stateResponse =>
      let tokenResponse := { tokenResponse with stateResponse := stateResponse }
      if stateLogin = some stateResponse ∨ silentAuthState = some stateResponse then
        { tokenResponse with requestType := Constants.login, stateMatch := true }
      else if stateAcquireToken = some stateResponse then
        { tokenResponse with requestType := Constants.renewToken, stateMatch := true }
      else
        { tokenResponse with
          requestType := windowRequestType
          stateMatch := renewStates.contains stateResponse }
  else tokenResponse

/-! ### Claim C7 -/

/-- C7 counterexample: a response whose state matches only an outstanding
renewal state is classified with the page's global request type, which is
`LOGIN` — not `RENEW_TOKEN` — whenever the last navigable request was a popup
login (`loginPopupHelper` pushes its state onto `window.renewStates` and sets
`window.requestType = login`, lines 589-590). -/
theorem claimC7_counterexample :
    getRequestInfo none none none Constants.login ["sA"]
        [("id_token", "tok"), ("state", "sA")]
      = { valid := true
          parameters := [("id_token", "tok"), ("state", "sA")]
          stateResponse := "sA"
          stateMatch := true
          requestType := Constants.login }
    ∧ Constants.login ≠ Constants.renewToken :=
  ⟨rfl, by decide⟩

/-- C7 (amended): a callback response whose state matches neither the
persisted login state, the silent-login state, nor the persisted
acquire-token state, but does appear among the outstanding renewal states, is
flagged as a state match and classified with the page's current global
request type — which equals `RENEW_TOKEN` exactly when the most recent
navigable request was a token renewal, not unconditionally. -/
theorem claimC7_theorem (stateLogin stateAcquireToken silentAuthState : Option String)
    (windowRequestType : String) (renewStates : List String)
    (params : List (String × String)) (s : String)
    (hcb : isCallbackParams params = true)
    (hs : lookupA params "state" = some s)
    (hl : stateLogin ≠ some s) (hsa : silentAuthState ≠ some s)
    (hat : stateAcquireToken ≠ some s)
    (hr : renewStates.contains s = true) :
    (getRequestInfo stateLogin stateAcquireToken silentAuthState windowRequestType
        renewStates params).stateMatch = true
    ∧ (getRequestInfo stateLogin stateAcquireToken silentAuthState windowRequestType
        renewStates params).requestType = windowRequestType
    ∧ (windowRequestType = Constants.renewToken →
        (getRequestInfo stateLogin stateAcquireToken silentAuthState windowRequestType
          renewStates params).requestType = Constants.renewToken) := by
  have hr' : s ∈ renewStates := by simpa using hr
  refine ⟨?_, ?_, ?_⟩ <;> simp [getRequestInfo, hcb, hs, hl, hsa, hat, hr']

/-- C7 witness. -/
theorem claimC7_witness :
    isCallbackParams [("access_token", "AT"), ("state", "sB")] = true
    ∧ lookupA [("access_token", "AT"), ("state", "sB")] "state" = some "sB"
    ∧ List.contains ["sB"] "sB" = true
    ∧ ((getRequestInfo none none none Constants.renewToken ["sB"]
          [("access_token", "AT"), ("state", "sB")]).stateMatch = true
      ∧ (getRequestInfo none none none Constants.renewToken ["sB"]
          [("access_token", "AT"), ("state", "sB")]).requestType = Constants.renewToken
      ∧ (Constants.renewToken = Constants.renewToken →
          (getRequestInfo none none none Constants.renewToken ["sB"]
            [("access_token", "AT"), ("state", "sB")]).requestType = Constants.renewToken)) :=
  ⟨by decide, by decide, by decide,
   claimC7_theorem none none none Constants.renewToken ["sB"]
     [("access_token", "AT"), ("state", "sB")] "sB"
     (by decide) (by decide) (by decide) (by decide) (by decide) (by decide)⟩

/-! ### The response correlator: persistence -/

/-- Environment of the response handler: the configured client id and the
decoding helpers the source takes from `Utils`/`IdToken`
(`Utils.replaceFirstPath`, `Utils.expiresIn`, `new IdToken(raw)` and
`new HomeAccountIdentifier(raw)`); their sources are not in the snapshot, so
they are opaque decoders here. -/
structure ResponseEnv where
  clientId : String
  decodeIdToken : String → IdToken
  parseClientInfo : String → HomeAccountIdentifier
  replaceFirstPath : String → String → String
  expiresInOf : String → Nat

/-- The mutable state read and written by `saveTokenFromHash`: the storage
entries involved, the token cache, the current account and the progress
flags.  The `acquireTokenAccountEntries` values model the JSON-serialized
account scratch entries; a stored `none` is the serialized `null` account
(which is a non-empty storage entry). -/
structure AppState where
  msalError : String
  msalErrorDescription : String
  loginError : String
  msalSessionState : Option String
  idTokenEntry : Option String
  msalClientInfo : Option String
  nonceIdToken : Option String
  stateLogin : Option String
  stateAcquireToken : Option String
  authorityEntries : List (String × String)
  acquireTokenAccountEntries : List (String × Option Account)
  accessTokenEntries : List AccessTokenCacheItem
  renewStatusEntries : List (String × String)
  pAccount : Option Account
  pLoginInProgress : Bool
  pAcquireTokenInProgress : Bool
deriving DecidableEq

/-- The `authority|state` scratch key. -/
def authorityKeyOf (state : String) : String :=
  Constants.authority ++ Constants.resourceDelimeter ++ state

/-- The `acquireTokenUser|hid|state` scratch key. -/
def acquireTokenUserKeyOf (hid state : String) : String :=
  Constants.acquireTokenUser ++ Constants.resourceDelimeter ++ hid
    ++ Constants.resourceDelimeter ++ state

/-- `getAccount` (UserAgentApplication.ts lines 2009-2026): the cached
current account, else the account derived from the persisted id token and
client info. -/
def getAccount (env : ResponseEnv) (st : AppState) : Option Account :=
  match st.pAccount with
  | some a => some a
  | none =>
    match st.idTokenEntry, st.msalClientInfo with
    | some rawId, some rawCi =>
      if rawId.isEmpty || rawCi.isEmpty then none
      else Account.createAccount (some (env.decodeIdToken rawId))
             (some (env.parseClientInfo rawCi))
    | _, _ => none

/-- Modelled from the spec: `Utils.compareObjects` on accounts — "equality
between two accounts for cache-scoping purposes is defined as equality of
homeAccountIdentifier" (spec §4.6). -/
def compareAccounts (a b : Account) : Bool :=
  a.homeAccountIdentifier == b.homeAccountIdentifier

/-- `saveAccessToken` (UserAgentApplication.ts lines 2135-2162).  With a
`scope` parameter: evict the entries for this client, authority and account
whose scope sets intersect the consented scopes (spec §4.2
`evictIntersecting`; `Storage.getAllAccessTokens` is modelled from the spec)
and append the access-token entry.  Without one: append the
id-token-as-access-token entry under the client id scope. -/
def saveAccessToken (env : ResponseEnv) (authority : String)
    (params : List (String × String)) (account : Account) (clientInfo : String)
    (idToken : IdToken) (entries : List AccessTokenCacheItem) :
    List AccessTokenCacheItem :=
  let clientObj := env.parseClientInfo clientInfo
  let userIdentifier :=
    base64EncodeStringUrlSafe clientObj.uid ++ "." ++ base64EncodeStringUrlSafe clientObj.utid
  match lookupA params "scope" with
  | some scopeParam =>
    let consentedScopes := splitSpaces scopeParam
    let entries := entries.filter fun it =>
      !(it.key.clientId == env.clientId && it.key.authority == authority
        && it.key.userIdentifier == account.homeAccountIdentifier
        && isIntersectingScopes (splitSpaces it.key.scopes) consentedScopes)
    entries ++
      [{ key := { authority := authority, clientId := env.clientId,
                  scopes := scopeParam, userIdentifier := userIdentifier },
         value := { accessToken := (lookupA params "access_token").getD "",
                    idToken := idToken.rawIdToken,
                    expiresIn := env.expiresInOf ((lookupA params "expires_in").getD ""),
                    clientInfo := clientInfo } }]
  | none =>
    entries ++
      [{ key := { authority := authority, clientId := env.clientId,
                  scopes := env.clientId, userIdentifier := userIdentifier },
         value := { accessToken := (lookupA params "id_token").getD "",
                    idToken := (lookupA params "id_token").getD "",
                    expiresIn := idToken.expiration,
                    clientInfo := clientInfo } }]

/-- The `session_state` write (UserAgentApplication.ts lines 2206-2208). -/
def saveSessionState (tr : TokenResponse) (st : AppState) : AppState :=
  match lookupA tr.parameters "session_state" with
  | some ss => { st with msalSessionState := some ss }
  | none => st

/-- The error-response branch of `saveTokenFromHash`
(UserAgentApplication.ts lines 2184-2199), returning the updated state and
the authority/acquireTokenAccount scratch keys for the tail cleanup. -/
def saveTokenError (env : ResponseEnv) (tr : TokenResponse) (st : AppState) :
    AppState × String × String :=
  let st := { st with
    msalError := (lookupA tr.parameters "error").getD ""
    msalErrorDescription := (lookupA tr.parameters "error_description").getD "" }
  let res1 :=
    if tr.requestType = Constants.login then
      ({ st with
          pLoginInProgress := false
          loginError := (lookupA tr.parameters "error_description").getD "" ++ ":"
            ++ (lookupA tr.parameters "error").getD "" },
       authorityKeyOf tr.stateResponse)
    else (st, "")
  if tr.requestType = Constants.renewToken then
    let userKey := match getAccount env res1.1 with
      | some a => a.homeAccountIdentifier
      | none => ""
    ({ res1.1 with pAcquireTokenInProgress := false },
     authorityKeyOf tr.stateResponse,
     acquireTokenUserKeyOf userKey tr.stateResponse)
  else (res1.1, res1.2, "")

/-- The access-token branch of `saveTokenFromHash`
(UserAgentApplication.ts lines 2211-2253): the token is cached only when the
account scratch entry for the derived account exists and stores an equal
account, or when the explicit no-account scratch entry exists; otherwise the
state is left as is. -/
def saveTokenAccessBranch (env : ResponseEnv) (tr : TokenResponse) (st : AppState) :
    AppState × String × String :=
  if hasParam tr.parameters "access_token" then
    let st := { st with pAcquireTokenInProgress := false }
    let idTok := match lookupA tr.parameters "id_token" with
      | some raw => env.decodeIdToken raw
      | none => env.decodeIdToken (st.idTokenEntry.getD "")
    let authorityKey := authorityKeyOf tr.stateResponse
    let authorityRaw := (lookupA st.authorityEntries authorityKey).getD ""
    let authority :=
      if authorityRaw.isEmpty then authorityRaw
      else env.replaceFirstPath authorityRaw idTok.tenantId
    let clientInfo := (lookupA tr.parameters "client_info").getD ""
    let account := Account.create idTok (env.parseClientInfo clientInfo)
    let userKey := acquireTokenUserKeyOf account.homeAccountIdentifier tr.stateResponse
    let noUserKey := acquireTokenUserKeyOf Constants.noAccount tr.stateResponse
    let st :=
      match lookupA st.acquireTokenAccountEntries userKey with
      | some storedAcct =>
        match storedAcct with
        | some sa =>
          if compareAccounts account sa then
            { st with accessTokenEntries :=
                (saveAccessToken env authority tr.parameters account clientInfo idTok
                  st.accessTokenEntries) }
          else st
        | none => st
      | none =>
        if (lookupA st.acquireTokenAccountEntries noUserKey).isSome then
          { st with accessTokenEntries :=
              (saveAccessToken env authority tr.parameters account clientInfo idTok
                st.accessTokenEntries) }
        else st
    (st, authorityKey, userKey)
  else (st, "", "")

/-- The id-token branch of `saveTokenFromHash`
(UserAgentApplication.ts lines 2255-2293), given the scratch keys from the
access branch: build the account, validate the embedded nonce against the
persisted one, and on success persist the id token, client info and the
id-token cache entry; on mismatch null the account and record the
nonce-mismatch error; with no embedded nonce record the invalid-id-token
error. -/
def saveTokenIdBranch (env : ResponseEnv) (tr : TokenResponse) (st : AppState)
    (authorityKey acquireTokenUserKey : String) : AppState × String × String :=
  if hasParam tr.parameters "id_token" then
    let st := { st with pLoginInProgress := false }
    let idTok := env.decodeIdToken ((lookupA tr.parameters "id_token").getD "")
    let clientInfo := (lookupA tr.parameters "client_info").getD ""
    let authorityKey := authorityKeyOf tr.stateResponse
    let authorityRaw := (lookupA st.authorityEntries authorityKey).getD ""
    let authority :=
      if authorityRaw.isEmpty then authorityRaw
      else env.replaceFirstPath authorityRaw idTok.tenantId
    let newAccount := Account.create idTok (env.parseClientInfo clientInfo)
    let st := { st with pAccount := some newAccount }
    if idTok.nonce ≠ "" then
      if (match st.nonceIdToken with
          | some n => idTok.nonce != n
          | none => true) = true then
        ({ st with
            pAccount := none
            loginError := "Nonce Mismatch. Expected Nonce: " ++ st.nonceIdToken.getD "null"
              ++ ",Actual Nonce: " ++ idTok.nonce },
         authorityKey, acquireTokenUserKey)
      else
        ({ st with
            idTokenEntry := lookupA tr.parameters "id_token"
            msalClientInfo := some clientInfo
            accessTokenEntries :=
              (saveAccessToken env authority tr.parameters newAccount clientInfo idTok
                st.accessTokenEntries) },
         authorityKey, acquireTokenUserKey)
    else
      ({ st with
          msalError := "invalid idToken"
          msalErrorDescription :=
            "Invalid idToken. idToken: " ++ (lookupA tr.parameters "id_token").getD "" },
       tr.stateResponse, tr.stateResponse)
  else (st, authorityKey, acquireTokenUserKey)

/-- `saveTokenFromHash` (UserAgentApplication.ts lines 2169-2311) as a state
transformer.  Logging and cookie mirroring are omitted.  The tail models
`Storage.removeAcquireTokenEntries` from the spec (§4.5: "clearing
pending-request bookkeeping ... keyed by the consumed state") as removal of
the two computed scratch keys, and records the completed renewal status. -/
def saveTokenFromHash (env : ResponseEnv) (tr : TokenResponse) (st : AppState) : AppState :=
  let st := { st with msalError := "", msalErrorDescription := "" }
  let res :=
    if hasParam tr.parameters "error_description" || hasParam tr.parameters "error" then
      saveTokenError env tr st
    else
      if tr.stateMatch then
        let st := saveSessionState tr st
        let acc := saveTokenAccessBranch env tr st
        saveTokenIdBranch env tr acc.1 acc.2.1 acc.2.2
      else
        ({ st with
            msalError := "Invalid_state"
            msalErrorDescription := "Invalid_state. state: " ++ tr.stateResponse },
         tr.stateResponse, tr.stateResponse)
  { res.1 with
    renewStatusEntries :=
      setA res.1.renewStatusEntries tr.stateResponse Constants.tokenRenewStatusCompleted
    authorityEntries := removeA res.1.authorityEntries res.2.1
    acquireTokenAccountEntries := removeA res.1.acquireTokenAccountEntries res.2.2 }

/-- The full incoming-response pipeline: classify the parsed fragment with
`getRequestInfo`, then persist with `saveTokenFromHash`
(`handleAuthenticationResponse`, lines 2058 and 2084). -/
def handleResponse (env : ResponseEnv) (silentAuthState : Option String)
    (windowRequestType : String) (renewStates : List String)
    (params : List (String × String)) (st : AppState) : AppState :=
  saveTokenFromHash env
    (getRequestInfo st.stateLogin st.stateAcquireToken silentAuthState
      windowRequestType renewStates params) st

/-! ### Support lemmas about the response handler -/

theorem saveSessionState_preserves (tr : TokenResponse) (st : AppState) :
    (saveSessionState tr st).msalError = st.msalError
    ∧ (saveSessionState tr st).msalErrorDescription = st.msalErrorDescription
    ∧ (saveSessionState tr st).loginError = st.loginError
    ∧ (saveSessionState tr st).idTokenEntry = st.idTokenEntry
    ∧ (saveSessionState tr st).msalClientInfo = st.msalClientInfo
    ∧ (saveSessionState tr st).nonceIdToken = st.nonceIdToken
    ∧ (saveSessionState tr st).authorityEntries = st.authorityEntries
    ∧ (saveSessionState tr st).acquireTokenAccountEntries = st.acquireTokenAccountEntries
    ∧ (saveSessionState tr st).accessTokenEntries = st.accessTokenEntries
    ∧ (saveSessionState tr st).renewStatusEntries = st.renewStatusEntries
    ∧ (saveSessionState tr st).pAccount = st.pAccount := by
  unfold saveSessionState
  cases lookupA tr.parameters "session_state" <;> simp

theorem saveTokenAccessBranch_preserves (env : ResponseEnv) (tr : TokenResponse)
    (st : AppState) :
    (saveTokenAccessBranch env tr st).1.msalError = st.msalError
    ∧ (saveTokenAccessBranch env tr st).1.msalErrorDescription = st.msalErrorDescription
    ∧ (saveTokenAccessBranch env tr st).1.loginError = st.loginError
    ∧ (saveTokenAccessBranch env tr st).1.idTokenEntry = st.idTokenEntry
    ∧ (saveTokenAccessBranch env tr st).1.msalClientInfo = st.msalClientInfo
    ∧ (saveTokenAccessBranch env tr st).1.nonceIdToken = st.nonceIdToken
    ∧ (saveTokenAccessBranch env tr st).1.authorityEntries = st.authorityEntries
    ∧ (saveTokenAccessBranch env tr st).1.acquireTokenAccountEntries
        = st.acquireTokenAccountEntries
    ∧ (saveTokenAccessBranch env tr st).1.renewStatusEntries = st.renewStatusEntries
    ∧ (saveTokenAccessBranch env tr st).1.pAccount = st.pAccount := by
  unfold saveTokenAccessBranch
  by_cases h : hasParam tr.parameters "access_token"
  · simp only [h, if_true]
    repeat' split
    all_goals simp
  · simp [h]

theorem saveTokenAccessBranch_noToken (env : ResponseEnv) (tr : TokenResponse)
    (st : AppState) (h : hasParam tr.parameters "access_token" = false) :
    saveTokenAccessBranch env tr st = (st, "", "") := by
  simp [saveTokenAccessBranch, h]

theorem saveTokenIdBranch_noToken (env : ResponseEnv) (tr : TokenResponse)
    (st : AppState) (a b : String) (h : hasParam tr.parameters "id_token" = false) :
    saveTokenIdBranch env tr st a b = (st, a, b) := by
  simp [saveTokenIdBranch, h]

theorem saveTokenError_effect (env : ResponseEnv) (tr : TokenResponse) (st : AppState) :
    (saveTokenError env tr st).1.accessTokenEntries = st.accessTokenEntries
    ∧ (saveTokenError env tr st).1.nonceIdToken = st.nonceIdToken
    ∧ (saveTokenError env tr st).1.idTokenEntry = st.idTokenEntry
    ∧ (saveTokenError env tr st).1.msalClientInfo = st.msalClientInfo
    ∧ (saveTokenError env tr st).1.pAccount = st.pAccount
    ∧ (saveTokenError env tr st).1.msalError = (lookupA tr.parameters "error").getD "" := by
  unfold saveTokenError
  repeat' split
  all_goals simp

/-! ### Claim C5 -/

/-- An `IdToken` record with empty claims. -/
def defaultIdToken : IdToken :=
  { rawIdToken := "", uid := "", utid := "", nonce := "", tenantId := ""
    preferredName := "", name := "", sid := "", issuer := "", expiration := 0
    decodedIdToken := "" }

/-- A concrete environment for the closed theorems: the decoder returns an id
token with nonce `N1`, the client-info parser a fixed uid/utid pair. -/
def testEnv : ResponseEnv :=
  { clientId := "client"
    decodeIdToken := fun raw => { defaultIdToken with rawIdToken := raw, nonce := "N1" }
    parseClientInfo := fun _ => { uid := "u", utid := "t" }
    replaceFirstPath := fun a _ => a
    expiresInOf := fun _ => 3600 }

/-- An application state with empty storage and no current account. -/
def emptyAppState : AppState :=
  { msalError := "", msalErrorDescription := "", loginError := ""
    msalSessionState := none, idTokenEntry := none, msalClientInfo := none
    nonceIdToken := none, stateLogin := none, stateAcquireToken := none
    authorityEntries := [], acquireTokenAccountEntries := [], accessTokenEntries := []
    renewStatusEntries := [], pAccount := none
    pLoginInProgress := false, pAcquireTokenInProgress := false }

/-- C5 counterexample: an error-shaped callback response whose state matches
nothing does not get a state-mismatch error recorded — the handler records
the server's own error instead (the error branch runs before any state
check).  No cache write happens and the nonce is untouched, but the recorded
error is `access_denied`, not `Invalid_state`. -/
theorem claimC5_counterexample :
    (handleResponse testEnv none Constants.renewToken []
        [("error", "access_denied"), ("error_description", "denied"), ("state", "sX")]
        emptyAppState).msalError = "access_denied"
    ∧ "access_denied" ≠ "Invalid_state"
    ∧ (handleResponse testEnv none Constants.renewToken []
        [("error", "access_denied"), ("error_description", "denied"), ("state", "sX")]
        emptyAppState).accessTokenEntries = emptyAppState.accessTokenEntries
    ∧ (handleResponse testEnv none Constants.renewToken []
        [("error", "access_denied"), ("error_description", "denied"), ("state", "sX")]
        emptyAppState).nonceIdToken = emptyAppState.nonceIdToken := by
  refine ⟨rfl, by decide, rfl, rfl⟩

/-- C5 (amended): for a callback response whose state matches neither the
persisted login state, the silent-login state, the persisted acquire-token
state, nor any outstanding renewal state: if the response carries no error
parameter, the handler records the state-mismatch error (`Invalid_state`)
for diagnostics; if it is error-shaped, the server's own error is recorded
instead.  In both cases no token cache entry is written and the persisted
nonce is not consumed. -/
theorem claimC5_theorem (env : ResponseEnv) (silentAuthState : Option String)
    (windowRequestType : String) (renewStates : List String)
    (params : List (String × String)) (st : AppState) (s : String)
    (hcb : isCallbackParams params = true)
    (hs : lookupA params "state" = some s)
    (hl : st.stateLogin ≠ some s) (hsa : silentAuthState ≠ some s)
    (hat : st.stateAcquireToken ≠ some s)
    (hr : renewStates.contains s = false) :
    ((hasParam params "error_description" || hasParam params "error") = false →
      (handleResponse env silentAuthState windowRequestType renewStates params st).msalError
          = "Invalid_state"
      ∧ (handleResponse env silentAuthState windowRequestType renewStates params st).msalErrorDescription
          = "Invalid_state. state: " ++ s
      ∧ (handleResponse env silentAuthState windowRequestType renewStates params st).accessTokenEntries
          = st.accessTokenEntries
      ∧ (handleResponse env silentAuthState windowRequestType renewStates params st).nonceIdToken
          = st.nonceIdToken)
    ∧ ((hasParam params "error_description" || hasParam params "error") = true →
      (handleResponse env silentAuthState windowRequestType renewStates params st).msalError
          = (lookupA params "error").getD ""
      ∧ (handleResponse env silentAuthState windowRequestType renewStates params st).accessTokenEntries
          = st.accessTokenEntries
      ∧ (handleResponse env silentAuthState windowRequestType renewStates params st).nonceIdToken
          = st.nonceIdToken) := by
  have hr' : s ∉ renewStates := by simpa using hr
  have hreq : getRequestInfo st.stateLogin st.stateAcquireToken silentAuthState
        windowRequestType renewStates params
      = { valid := true, parameters := params, stateResponse := s
          stateMatch := false, requestType := windowRequestType } := by
    simp [getRequestInfo, hcb, hs, hl, hsa, hat, hr']
  unfold handleResponse
  rw [hreq]
  constructor
  · intro herr
    unfold saveTokenFromHash
    simp only [herr]
    simp
  · intro herr
    unfold saveTokenFromHash
    simp only [herr]
    obtain ⟨he1, he2, _, _, _, he6⟩ := saveTokenError_effect env
      { valid := true, parameters := params, stateResponse := s
        stateMatch := false, requestType := windowRequestType }
      { st with msalError := "", msalErrorDescription := "" }
    simp only [if_true]
    refine ⟨by simpa using he6, by simpa using he1, by simpa using he2⟩

/-- C5 witness. -/
theorem claimC5_witness :
    isCallbackParams [("access_token", "AT"), ("state", "sW")] = true
    ∧ lookupA [("access_token", "AT"), ("state", "sW")] "state" = some "sW"
    ∧ (((hasParam [("access_token", "AT"), ("state", "sW")] "error_description"
          || hasParam [("access_token", "AT"), ("state", "sW")] "error") = false →
        (handleResponse testEnv none Constants.renewToken []
            [("access_token", "AT"), ("state", "sW")] emptyAppState).msalError
            = "Invalid_state"
        ∧ (handleResponse testEnv none Constants.renewToken []
            [("access_token", "AT"), ("state", "sW")] emptyAppState).msalErrorDescription
            = "Invalid_state. state: " ++ "sW"
        ∧ (handleResponse testEnv none Constants.renewToken []
            [("access_token", "AT"), ("state", "sW")] emptyAppState).accessTokenEntries
            = emptyAppState.accessTokenEntries
        ∧ (handleResponse testEnv none Constants.renewToken []
            [("access_token", "AT"), ("state", "sW")] emptyAppState).nonceIdToken
            = emptyAppState.nonceIdToken)
      ∧ ((hasParam [("access_token", "AT"), ("state", "sW")] "error_description"
          || hasParam [("access_token", "AT"), ("state", "sW")] "error") = true →
        (handleResponse testEnv none Constants.renewToken []
            [("access_token", "AT"), ("state", "sW")] emptyAppState).msalError
            = (lookupA [("access_token", "AT"), ("state", "sW")] "error").getD ""
        ∧ (handleResponse testEnv none Constants.renewToken []
            [("access_token", "AT"), ("state", "sW")] emptyAppState).accessTokenEntries
            = emptyAppState.accessTokenEntries
        ∧ (handleResponse testEnv none Constants.renewToken []
            [("access_token", "AT"), ("state", "sW")] emptyAppState).nonceIdToken
            = emptyAppState.nonceIdToken)) :=
  ⟨by decide, by decide,
   claimC5_theorem testEnv none Constants.renewToken []
     [("access_token", "AT"), ("state", "sW")] emptyAppState "sW"
     (by decide) (by decide) (by decide) (by decide) (by decide) (by decide)⟩

/-! ### Claim C6 -/

theorem saveTokenIdBranch_mismatch (env : ResponseEnv) (tr : TokenResponse)
    (A : AppState) (a b : String) (rawId : String)
    (hid : lookupA tr.parameters "id_token" = some rawId)
    (hn : (env.decodeIdToken rawId).nonce ≠ "")
    (hmm : ∀ n, A.nonceIdToken = some n → (env.decodeIdToken rawId).nonce ≠ n) :
    saveTokenIdBranch env tr A a b =
      ({ A with
          pLoginInProgress := false
          pAccount := none
          loginError := "Nonce Mismatch. Expected Nonce: " ++ A.nonceIdToken.getD "null"
            ++ ",Actual Nonce: " ++ (env.decodeIdToken rawId).nonce },
       authorityKeyOf tr.stateResponse, b) := by
  have hhas : hasParam tr.parameters "id_token" = true := by simp [hasParam, hid]
  unfold saveTokenIdBranch
  simp only [hhas, if_true, hid, Option.getD_some]
  rw [if_pos hn]
  cases hA : A.nonceIdToken with
  | none => simp [hA]
  | some n =>
    have hne := hmm n hA
    simp [hA, bne_iff_ne, hne]

/-- C6: a state-matched, non-error response carrying an id token whose
embedded nonce differs from the persisted nonce (or arrives with no persisted
nonce) gets the nonce-mismatch error recorded in the login-error entry, the
account built from the id token is discarded (the current account ends up
unset, not set to it), the raw id token and client info are not persisted,
and — when the response carries no access token — no token cache entry is
written at all. -/
theorem claimC6_theorem (env : ResponseEnv) (tr : TokenResponse) (st : AppState)
    (rawId : String)
    (hm : tr.stateMatch = true)
    (he1 : hasParam tr.parameters "error_description" = false)
    (he2 : hasParam tr.parameters "error" = false)
    (hid : lookupA tr.parameters "id_token" = some rawId)
    (hn : (env.decodeIdToken rawId).nonce ≠ "")
    (hmm : ∀ n, st.nonceIdToken = some n → (env.decodeIdToken rawId).nonce ≠ n) :
    (saveTokenFromHash env tr st).pAccount = none
    ∧ (saveTokenFromHash env tr st).loginError
        = "Nonce Mismatch. Expected Nonce: " ++ st.nonceIdToken.getD "null"
          ++ ",Actual Nonce: " ++ (env.decodeIdToken rawId).nonce
    ∧ (saveTokenFromHash env tr st).idTokenEntry = st.idTokenEntry
    ∧ (saveTokenFromHash env tr st).msalClientInfo = st.msalClientInfo
    ∧ (hasParam tr.parameters "access_token" = false →
        (saveTokenFromHash env tr st).accessTokenEntries = st.accessTokenEntries) := by
  obtain ⟨s1, s2, s3, s4, s5, s6, s7, s8, s9, s10, s11⟩ :=
    saveSessionState_preserves tr { st with msalError := "", msalErrorDescription := "" }
  obtain ⟨a1, a2, a3, a4, a5, a6, a7, a8, a9, a10⟩ :=
    saveTokenAccessBranch_preserves env tr
      (saveSessionState tr { st with msalError := "", msalErrorDescription := "" })
  have hAn : (saveTokenAccessBranch env tr
      (saveSessionState tr { st with msalError := "", msalErrorDescription := "" })).1.nonceIdToken
      = st.nonceIdToken := by rw [a6, s6]
  have hAid : (saveTokenAccessBranch env tr
      (saveSessionState tr { st with msalError := "", msalErrorDescription := "" })).1.idTokenEntry
      = st.idTokenEntry := by rw [a4, s4]
  have hAci : (saveTokenAccessBranch env tr
      (saveSessionState tr { st with msalError := "", msalErrorDescription := "" })).1.msalClientInfo
      = st.msalClientInfo := by rw [a5, s5]
  unfold saveTokenFromHash
  simp only [he1, he2, Bool.or_self, Bool.false_eq_true, if_false, hm, if_true]
  rw [saveTokenIdBranch_mismatch env tr _ _ _ rawId hid hn (by rw [hAn]; exact hmm)]
  refine ⟨rfl, by simp [hAn], by simp [hAid], by simp [hAci], ?_⟩
  intro hat
  rw [saveTokenAccessBranch_noToken env tr _ hat]
  simpa using s9

/-- C6 witness. -/
theorem claimC6_witness :
    lookupA [("id_token", "RAW"), ("state", "sY")] "id_token" = some "RAW"
    ∧ (testEnv.decodeIdToken "RAW").nonce ≠ ""
    ∧ (let tr : TokenResponse :=
        { valid := true, parameters := [("id_token", "RAW"), ("state", "sY")]
          stateResponse := "sY", stateMatch := true, requestType := Constants.login }
       let st : AppState := { emptyAppState with nonceIdToken := some "N0" }
       (saveTokenFromHash testEnv tr st).pAccount = none
       ∧ (saveTokenFromHash testEnv tr st).loginError
           = "Nonce Mismatch. Expected Nonce: " ++ st.nonceIdToken.getD "null"
             ++ ",Actual Nonce: " ++ (testEnv.decodeIdToken "RAW").nonce
       ∧ (saveTokenFromHash testEnv tr st).idTokenEntry = st.idTokenEntry
       ∧ (saveTokenFromHash testEnv tr st).msalClientInfo = st.msalClientInfo
       ∧ (hasParam tr.parameters "access_token" = false →
           (saveTokenFromHash testEnv tr st).accessTokenEntries = st.accessTokenEntries)) :=
  ⟨by decide, by decide,
   claimC6_theorem testEnv
     { valid := true, parameters := [("id_token", "RAW"), ("state", "sY")]
       stateResponse := "sY", stateMatch := true, requestType := Constants.login }
     { emptyAppState with nonceIdToken := some "N0" } "RAW"
     (by decide) (by decide) (by decide) (by decide) (by decide)
     (by intro n h; simp [emptyAppState] at h; subst h; decide)⟩

/-! ### Claim C10 -/

/-- The acquireTokenAccount scratch entry for the given account and state
exists and stores an equal account. -/
def scratchAccountMatches (st : AppState) (state : String) (account : Account) : Prop :=
  ∃ sa, lookupA st.acquireTokenAccountEntries
      (acquireTokenUserKeyOf account.homeAccountIdentifier state) = some (some sa)
    ∧ compareAccounts account sa = true

/-- The explicit no-account scratch entry for the state exists. -/
def scratchNoAccountExists (st : AppState) (state : String) : Prop :=
  (lookupA st.acquireTokenAccountEntries
    (acquireTokenUserKeyOf Constants.noAccount state)).isSome = true

theorem saveTokenAccessBranch_noWrite (env : ResponseEnv) (tr : TokenResponse)
    (st : AppState) (account : Account)
    (hat : hasParam tr.parameters "access_token" = true)
    (hacct : account = Account.create
      (match lookupA tr.parameters "id_token" with
       | some raw => env.decodeIdToken raw
       | none => env.decodeIdToken (st.idTokenEntry.getD ""))
      (env.parseClientInfo ((lookupA tr.parameters "client_info").getD "")))
    (hA : ¬ scratchAccountMatches st tr.stateResponse account)
    (hB : ¬ scratchNoAccountExists st tr.stateResponse) :
    (saveTokenAccessBranch env tr st).1.accessTokenEntries = st.accessTokenEntries := by
  unfold saveTokenAccessBranch
  simp only [hat, if_true]
  rcases hlook : lookupA st.acquireTokenAccountEntries
      (acquireTokenUserKeyOf account.homeAccountIdentifier tr.stateResponse)
    with _ | ⟨_ | sa⟩
  · have hB' : (lookupA st.acquireTokenAccountEntries
        (acquireTokenUserKeyOf Constants.noAccount tr.stateResponse)).isSome = false := by
      revert hB
      unfold scratchNoAccountExists
      cases (lookupA st.acquireTokenAccountEntries
        (acquireTokenUserKeyOf Constants.noAccount tr.stateResponse)).isSome <;> simp
    rw [← hacct] at *
    simp [hlook, hB']
  · rw [← hacct] at *
    simp [hlook]
  · have hcmp : compareAccounts account sa = false := by
      by_contra hc
      exact hA ⟨sa, hlook, by revert hc; cases compareAccounts account sa <;> simp⟩
    rw [← hacct] at *
    simp [hlook, hcmp]

/-- C10: for a state-matched non-error response carrying an access token (and
no id token), the token is cached only when the acquireTokenAccount scratch
entry for the derived account exists under the consumed state and stores an
equal account, or the explicit no-account scratch entry for that state
exists; when neither holds the handler completes with the cache untouched and
no error surfaced — the token is silently dropped. -/
theorem claimC10_theorem (env : ResponseEnv) (tr : TokenResponse) (st : AppState)
    (account : Account)
    (hm : tr.stateMatch = true)
    (he1 : hasParam tr.parameters "error_description" = false)
    (he2 : hasParam tr.parameters "error" = false)
    (hat : hasParam tr.parameters "access_token" = true)
    (hnoid : hasParam tr.parameters "id_token" = false)
    (hacct : account = Account.create (env.decodeIdToken (st.idTokenEntry.getD ""))
      (env.parseClientInfo ((lookupA tr.parameters "client_info").getD ""))) :
    ((¬ scratchAccountMatches st tr.stateResponse account
      ∧ ¬ scratchNoAccountExists st tr.stateResponse) →
      (saveTokenFromHash env tr st).accessTokenEntries = st.accessTokenEntries
      ∧ (saveTokenFromHash env tr st).msalError = ""
      ∧ (saveTokenFromHash env tr st).loginError = st.loginError)
    ∧ ((saveTokenFromHash env tr st).accessTokenEntries ≠ st.accessTokenEntries →
      scratchAccountMatches st tr.stateResponse account
      ∨ scratchNoAccountExists st tr.stateResponse) := by
  obtain ⟨s1, s2, s3, s4, s5, s6, s7, s8, s9, s10, s11⟩ :=
    saveSessionState_preserves tr { st with msalError := "", msalErrorDescription := "" }
  obtain ⟨a1, a2, a3, a4, a5, a6, a7, a8, a9, a10⟩ :=
    saveTokenAccessBranch_preserves env tr
      (saveSessionState tr { st with msalError := "", msalErrorDescription := "" })
  have hidnone : lookupA tr.parameters "id_token" = none := by
    revert hnoid
    unfold hasParam
    cases lookupA tr.parameters "id_token" <;> simp
  have hmain : (¬ scratchAccountMatches st tr.stateResponse account
      ∧ ¬ scratchNoAccountExists st tr.stateResponse) →
      (saveTokenFromHash env tr st).accessTokenEntries = st.accessTokenEntries
      ∧ (saveTokenFromHash env tr st).msalError = ""
      ∧ (saveTokenFromHash env tr st).loginError = st.loginError := by
    rintro ⟨hA, hB⟩
    have hA2 : ¬ scratchAccountMatches
        (saveSessionState tr { st with msalError := "", msalErrorDescription := "" })
        tr.stateResponse account := by
      unfold scratchAccountMatches at *
      rw [s8]; exact hA
    have hB2 : ¬ scratchNoAccountExists
        (saveSessionState tr { st with msalError := "", msalErrorDescription := "" })
        tr.stateResponse := by
      unfold scratchNoAccountExists at *
      rw [s8]; exact hB
    have hacct2 : account = Account.create
        (match lookupA tr.parameters "id_token" with
         | some raw => env.decodeIdToken raw
         | none => env.decodeIdToken
            ((saveSessionState tr
              { st with msalError := "", msalErrorDescription := "" }).idTokenEntry.getD ""))
        (env.parseClientInfo ((lookupA tr.parameters "client_info").getD "")) := by
      rw [hidnone, s4]
      exact hacct
    have hwrite := saveTokenAccessBranch_noWrite env tr
      (saveSessionState tr { st with msalError := "", msalErrorDescription := "" })
      account hat hacct2 hA2 hB2
    unfold saveTokenFromHash
    simp only [he1, he2, Bool.or_self, Bool.false_eq_true, if_false, hm, if_true]
    rw [saveTokenIdBranch_noToken env tr _ _ _ hnoid]
    refine ⟨by simpa [s9] using hwrite, by simp [a1, s1], by simp [a3, s3]⟩
  refine ⟨hmain, ?_⟩
  intro hne
  by_cases hAB : scratchAccountMatches st tr.stateResponse account
      ∨ scratchNoAccountExists st tr.stateResponse
  · exact hAB
  · push_neg at hAB
    exact absurd (hmain hAB).1 hne

/-- C10 witness. -/
theorem claimC10_witness :
    (let tr : TokenResponse :=
      { valid := true
        parameters := [("access_token", "AT"), ("scope", "s1"), ("state", "sZ")]
        stateResponse := "sZ", stateMatch := true, requestType := Constants.renewToken }
     let account : Account := Account.create (testEnv.decodeIdToken "")
       (testEnv.parseClientInfo "")
     ((¬ scratchAccountMatches emptyAppState tr.stateResponse account
       ∧ ¬ scratchNoAccountExists emptyAppState tr.stateResponse) →
       (saveTokenFromHash testEnv tr emptyAppState).accessTokenEntries
           = emptyAppState.accessTokenEntries
       ∧ (saveTokenFromHash testEnv tr emptyAppState).msalError = ""
       ∧ (saveTokenFromHash testEnv tr emptyAppState).loginError = emptyAppState.loginError)
     ∧ ((saveTokenFromHash testEnv tr emptyAppState).accessTokenEntries
          ≠ emptyAppState.accessTokenEntries →
       scratchAccountMatches emptyAppState tr.stateResponse account
       ∨ scratchNoAccountExists emptyAppState tr.stateResponse)) :=
  claimC10_theorem testEnv
    { valid := true
      parameters := [("access_token", "AT"), ("scope", "s1"), ("state", "sZ")]
      stateResponse := "sZ", stateMatch := true, requestType := Constants.renewToken }
    emptyAppState
    (Account.create (testEnv.decodeIdToken "") (testEnv.parseClientInfo ""))
    (by decide) (by decide) (by decide) (by decide) (by decide) rfl

/-! ### Scope validation and the acquisition entry points -/

namespace ErrorCodes

/-- Modelled from the spec: `Constants.ts` error codes are not in the
snapshot; only their identity matters. -/
def inputScopesError : String := "input_scopes_error"

def userLoginError : String := "user_login_required"

def acquireTokenProgressError : String := "acquiretoken_progress_error"

def endpointResolutionError : String := "endpoints_resolution_error"

end ErrorCodes

/-- `validateInputScope` (UserAgentApplication.ts lines 1527-1542); a missing
scopes argument is as falsy as an empty one.  Returns the validation message,
`""` when valid. -/
def validateInputScope (clientId : String) (scopes : Option (List String)) : String :=
  match scopes with
  | none => "Scopes cannot be passed as an empty array"
  | some s =>
    if s.length < 1 then "Scopes cannot be passed as an empty array"
    else if s.contains clientId ∧ 1 < s.length then
      "ClientId can only be provided as a single scope"
    else ""

/-- `filterScopes` (UserAgentApplication.ts lines 1548-1558): drop the
implicit `openid` and `profile` scopes. -/
def filterScopes (scopes : List String) : List String :=
  (scopes.filter (fun e => e ≠ "openid")).filter (fun e => e ≠ "profile")

/-- Decision outcome of one `acquireTokenSilent` call. -/
inductive SilentOutcome where
  | rejectedInvalidScope (msg : String)
  | rejectedUserLoginRequired
  | resolvedFromCache (token : String)
  | rejectedCacheError (msg : String)
  | registeredToExistingRenewal (renewState : String)
  | startedIdTokenRenewal
  | startedAccessTokenRenewal
deriving DecidableEq

/-- The renewal decision after a cache miss and endpoint resolution
(UserAgentApplication.ts lines 1055-1070). -/
def silentRenewDecision (clientId : String) (scopes : List String) (scope : String)
    (activeRenewals : List (String × String)) (cache : List AccessTokenCacheItem) :
    SilentOutcome × List AccessTokenCacheItem :=
  match lookupA activeRenewals scope with
  | some st => (.registeredToExistingRenewal st, cache)
  | none =>
    if scopes.contains clientId ∧ scopes.length = 1 then (.startedIdTokenRenewal, cache)
    else (.startedAccessTokenRenewal, cache)

/-- `acquireTokenSilent` (UserAgentApplication.ts lines 986-1078) reduced to
its decision outcome and the resulting cache.  Endpoint resolution is taken
to succeed (its failure rejects and touches nothing).  `checkSSO` stands for
`Utils.checkSSO(extraQueryParameters)` and `adalIdToken` for the
legacy-interop storage entry; accounts are identified by their
homeAccountIdentifier. -/
def acquireTokenSilentOutcome (clientId : String) (offsetCfg : Option Nat) (now : Nat)
    (scopesIn : Option (List String)) (authority : Option String)
    (accountHid currentAccountHid : Option String)
    (checkSSO : Bool) (adalIdToken : String)
    (cache : List AccessTokenCacheItem)
    (activeRenewals : List (String × String)) : SilentOutcome × List AccessTokenCacheItem :=
  let isValidScope := validateInputScope clientId scopesIn
  if isValidScope ≠ "" then
    (.rejectedInvalidScope (ErrorCodes.inputScopesError ++ "|" ++ isValidScope), cache)
  else
    let scopes := filterScopes (scopesIn.getD [])
    let scope := normalizeScopeKey scopes
    let accountObject := match accountHid with | some h => some h | none => currentAccountHid
    if accountObject = none ∧ checkSSO ∧ adalIdToken.isEmpty then
      (.rejectedUserLoginRequired, cache)
    else
      let res := getCachedToken offsetCfg now clientId scopes authority accountObject cache
      match res.1 with
      | some cacheResult =>
        if truthy cacheResult.token then
          (.resolvedFromCache (cacheResult.token.getD ""), res.2)
        else if truthy cacheResult.errorDesc || truthy cacheResult.error then
          (.rejectedCacheError ((cacheResult.errorDesc.getD "") ++ Constants.resourceDelimeter
            ++ (cacheResult.error.getD "")), res.2)
        else silentRenewDecision clientId scopes scope activeRenewals res.2
      | none => silentRenewDecision clientId scopes scope activeRenewals res.2

/-- Observable trace of one `acquireTokenPopup` call
(UserAgentApplication.ts lines 770-857): the promise rejections in order,
whether a popup window was opened, and whether it was navigated to the
authorization URL.  The scope-validation rejection on line 774 is NOT
followed by a return — execution continues. -/
structure PopupTrace where
  rejections : List String
  popupOpened : Bool
  popupNavigated : Bool
deriving DecidableEq

/-- `acquireTokenPopup` (UserAgentApplication.ts lines 770-857) reduced to
its observable trace.  A missing scopes array makes line 787
(`scopes.join(" ")`) throw, ending the trace; `popupOpens` is whether
`openWindow` succeeds, `endpointsResolve` whether authority resolution
succeeds (on success the popup is navigated, line 839). -/
def acquireTokenPopupTrace (clientId : String) (scopesIn : Option (List String))
    (accountPresent acquireTokenInProgress loginHintPresent popupOpens endpointsResolve :
      Bool) : PopupTrace :=
  let isValidScope := validateInputScope clientId scopesIn
  let rej0 : List String :=
    if isValidScope ≠ "" then
      [ErrorCodes.inputScopesError ++ Constants.resourceDelimeter ++ isValidScope]
    else []
  let rest : List String × Bool × Bool :=
    if acquireTokenInProgress then ([ErrorCodes.acquireTokenProgressError], false, false)
    else
      match scopesIn with
      | none => ([], false, false)
      | some _ =>
        if ¬accountPresent ∧ ¬loginHintPresent then ([ErrorCodes.userLoginError], false, false)
        else if ¬popupOpens then ([], false, false)
        else if endpointsResolve then ([], true, true)
        else ([ErrorCodes.endpointResolutionError], true, false)
  { rejections := rej0 ++ rest.1
    popupOpened := rest.2.1
    popupNavigated := rest.2.2 }

/-! ### Claim C9 -/

/-- C9 counterexample: `acquireTokenPopup` called with an empty scope array
(while an account is signed in and nothing is in progress) rejects with the
scope-validation error but still opens AND navigates the popup — navigation
is not prevented. -/
theorem claimC9_counterexample :
    (acquireTokenPopupTrace "client" (some []) true false false true true).rejections
        = [ErrorCodes.inputScopesError ++ "|" ++ "Scopes cannot be passed as an empty array"]
    ∧ (acquireTokenPopupTrace "client" (some []) true false false true true).popupNavigated
        = true
    ∧ (acquireTokenPopupTrace "client" (some []) true false false true true).popupOpened
        = true := by
  refine ⟨by decide, by decide, by decide⟩

/-- An invalid scopes argument: missing, empty, or the client id combined
with at least one other scope. -/
def invalidScopesArg (clientId : String) (scopesIn : Option (List String)) : Prop :=
  scopesIn = none ∨ scopesIn = some []
    ∨ (∃ l, scopesIn = some l ∧ l.contains clientId = true ∧ 1 < l.length)

theorem validateInputScope_invalid (clientId : String) (scopesIn : Option (List String))
    (h : invalidScopesArg clientId scopesIn) :
    validateInputScope clientId scopesIn ≠ "" := by
  rcases h with h | h | ⟨l, hl, hc, hlen⟩
  · subst h; simp [validateInputScope]
  · subst h; simp [validateInputScope]
  · subst hl
    have hc' : clientId ∈ l := by simpa using hc
    have h1 : ¬ l.length < 1 := by omega
    simp [validateInputScope, h1, hc', hlen]

/-- C9 (amended): an empty/absent scopes array, or the client id combined
with other scopes, makes the silent entry point reject synchronously with
the scope-validation error, with no cache lookup result returned, no cache
mutation and no renewal started; the popup entry point also rejects first
with the same error, but does not stop — the popup may still be opened and
navigated. -/
theorem claimC9_theorem (clientId : String) (offsetCfg : Option Nat) (now : Nat)
    (scopesIn : Option (List String)) (authority : Option String)
    (accountHid currentAccountHid : Option String) (checkSSO : Bool) (adalIdToken : String)
    (cache : List AccessTokenCacheItem) (activeRenewals : List (String × String))
    (accountPresent acquireTokenInProgress loginHintPresent popupOpens endpointsResolve : Bool)
    (hinv : invalidScopesArg clientId scopesIn) :
    acquireTokenSilentOutcome clientId offsetCfg now scopesIn authority accountHid
        currentAccountHid checkSSO adalIdToken cache activeRenewals
      = (.rejectedInvalidScope
          (ErrorCodes.inputScopesError ++ "|" ++ validateInputScope clientId scopesIn), cache)
    ∧ (acquireTokenPopupTrace clientId scopesIn accountPresent acquireTokenInProgress
        loginHintPresent popupOpens endpointsResolve).rejections.head?
      = some (ErrorCodes.inputScopesError ++ Constants.resourceDelimeter
          ++ validateInputScope clientId scopesIn) := by
  have hv := validateInputScope_invalid clientId scopesIn hinv
  constructor
  · unfold acquireTokenSilentOutcome
    rw [if_pos hv]
  · unfold acquireTokenPopupTrace
    simp [hv]

/-- C9 witness. -/
theorem claimC9_witness :
    invalidScopesArg "client" (some ["client", "other"])
    ∧ (acquireTokenSilentOutcome "client" none 0 (some ["client", "other"]) none
          (some "hid") none true "" [] []
        = (.rejectedInvalidScope (ErrorCodes.inputScopesError ++ "|"
            ++ validateInputScope "client" (some ["client", "other"])), [])
      ∧ (acquireTokenPopupTrace "client" (some ["client", "other"]) true false false
          true true).rejections.head?
        = some (ErrorCodes.inputScopesError ++ Constants.resourceDelimeter
            ++ validateInputScope "client" (some ["client", "other"]))) :=
  ⟨Or.inr (Or.inr ⟨["client", "other"], rfl, by decide, by decide⟩),
   claimC9_theorem "client" none 0 (some ["client", "other"]) none (some "hid") none
     true "" [] [] true false false true true
     (Or.inr (Or.inr ⟨["client", "other"], rfl, by decide, by decide⟩))⟩

end MsalSpec
